import Mathlib

/-!
Shallow embedding of the rolodex SSH client's authentication-resolution and
session-establishment engine (package `internal/ssh`: `agent.go` / `identity.go` /
`keyring.go` / `password.go` / `session.go`, plus the `internal/logger` contract).

Go strings that carry secrets retrieved from the keyring are modelled as their
byte sequences (`GoBytes`), because the source indexes them byte-wise.  External
collaborators (the OS keyring, the filesystem, the SSH library's key parsers,
the network) are modelled as explicit environment parameters, so every function
of the source becomes a total, executable Lean function of its environment.
-/

namespace Rolodex

/-- A Go string viewed as its byte sequence (Go strings are byte sequences). -/
abbrev GoBytes := List Nat

/-- `ssh.AuthMethod` descriptors, tagged by the constructor that produced them:
`ssh.PublicKeysCallback(agent.Signers)`, `ssh.PublicKeys(signer)`,
`ssh.Password(secret)` and `ssh.KeyboardInteractive(callback secret)`. -/
inductive AuthMethod where
  | agentKeys : AuthMethod
  | publicKeys (signer : Nat) : AuthMethod
  | password (secret : GoBytes) : AuthMethod
  | keyboardInteractive (secret : GoBytes) : AuthMethod
deriving DecidableEq

/-- The challenge callback bound to the keyboard-interactive descriptor in
`TryPasswordAuth`: every question is answered with the secret
(`answers[i] = password` for each `i`). -/
def keyboardInteractiveAnswers (password : GoBytes) (questions : List String) : List GoBytes :=
  questions.map (fun _ => password)

/-- `TryPasswordAuth` (password.go): appends a direct password method, then a
keyboard-interactive method answering every challenge with the secret. -/
def TryPasswordAuth (password : GoBytes) : List AuthMethod :=
  let authMethods : List AuthMethod := []
  let authMethods := authMethods ++ [AuthMethod.password password]
  let authMethods := authMethods ++ [AuthMethod.keyboardInteractive password]
  authMethods

/-- `utf16.Decode` from Go's standard library: little-endian is already applied
by the caller; here we turn 16-bit units into runes, combining well-formed
surrogate pairs and replacing unpaired surrogates with U+FFFD. -/
def utf16Decode : List Nat → List Nat
  | [] => []
  | [r] => (if r < 0xD800 ∨ 0xE000 ≤ r then r else 0xFFFD) :: []
  | r :: r2 :: rest =>
    if r < 0xD800 ∨ 0xE000 ≤ r then
      r :: utf16Decode (r2 :: rest)
    else if 0xD800 ≤ r ∧ r < 0xDC00 ∧ 0xDC00 ≤ r2 ∧ r2 < 0xE000 then
      ((((r - 0xD800) <<< 10) ||| (r2 - 0xDC00)) + 0x10000) :: utf16Decode rest
    else
      0xFFFD :: utf16Decode (r2 :: rest)

/-- UTF-8 encoding of one rune, as Go's `string(runes)` conversion performs it
(surrogates and out-of-range values become the replacement character). -/
def utf8EncodeRune (r : Nat) : List Nat :=
  if r < 0x80 then [r]
  else if r < 0x800 then [0xC0 ||| (r >>> 6), 0x80 ||| (r &&& 0x3F)]
  else if 0xD800 ≤ r ∧ r ≤ 0xDFFF then [0xEF, 0xBF, 0xBD]
  else if r < 0x10000 then
    [0xE0 ||| (r >>> 12), 0x80 ||| ((r >>> 6) &&& 0x3F), 0x80 ||| (r &&& 0x3F)]
  else if r ≤ 0x10FFFF then
    [0xF0 ||| (r >>> 18), 0x80 ||| ((r >>> 12) &&& 0x3F), 0x80 ||| ((r >>> 6) &&& 0x3F),
      0x80 ||| (r &&& 0x3F)]
  else [0xEF, 0xBF, 0xBD]

/-- Go `string(runes)`: UTF-8 encode every rune. -/
def utf8Encode (runes : List Nat) : GoBytes :=
  (runes.map utf8EncodeRune).flatten

/-- The byte-pair-to-`uint16` loop of `GetPasswordFromKeyring`:
`utf16Slice[i] = uint16(b[2i]) | uint16(b[2i+1])<<8`. -/
def bytesToUnits : GoBytes → List Nat
  | b0 :: b1 :: rest => (b0 ||| (b1 <<< 8)) :: bytesToUnits rest
  | _ => []

/-- Bytes of a Lean-modelled Go string literal (UTF-8, as Go source literals). -/
def strBytes (s : String) : GoBytes :=
  ((s.data.map Char.toNat).map utf8EncodeRune).flatten

/-- `GetPasswordFromKeyring` (keyring.go).  `keyringGet` models the external
`keyring.Get`; the error message of `keyring.ErrNotFound` is
"secret not found in keyring". -/
def GetPasswordFromKeyring (keyringGet : String → String → Except String GoBytes)
    (service account : String) : Except String GoBytes :=
  if service = "" ∨ account = "" then Except.error "secret not found in keyring"
  else
    match keyringGet service account with
    | Except.error e => Except.error e
    | Except.ok password =>
      -- Check if password is UTF-16LE encoded
      if 1 < password.length ∧ password.getD 1 1 = 0 then
        if password.length % 2 ≠ 0 then Except.ok password -- Odd length, can't be valid UTF-16LE
        else Except.ok (utf8Encode (utf16Decode (bytesToUnits password)))
      else Except.ok password

/-- Environment of `TrySSHAgent` (agent.go): the `SSH_AUTH_SOCK` value read
from the environment ("" when unset) and the outcome of `net.Dial`. -/
structure AgentEnv where
  sshAuthSock : String
  dial : String → String → Bool

/-- `TrySSHAgent` (agent.go): yields one agent-backed method when the socket
address is set and dialling it (unix socket, or named pipe when the address
begins with a backslash) succeeds. -/
def TrySSHAgent (env : AgentEnv) : Option AuthMethod :=
  let socket := env.sshAuthSock
  if socket = "" then none
  else
    let network := if 0 < socket.length ∧ socket.data.getD 0 ' ' = '\\' then "pipe" else "unix"
    if env.dial network socket then some AuthMethod.agentKeys
    else none

/-- Go `strings.HasPrefix(s, "~")`. -/
def startsWithTilde (s : String) : Bool :=
  match s.data with
  | c :: _ => c = '~'
  | [] => false

/-- Go `s[1:]` on a string beginning with the one-byte character `~`. -/
def strDropFirst (s : String) : String :=
  String.mk (s.data.drop 1)

/-- Does the character list `s` start with `sub`? -/
def charsStart : List Char → List Char → Bool
  | _, [] => true
  | [], _ :: _ => false
  | a :: s, b :: t => a == b && charsStart s t

/-- Go `strings.Contains` on character lists: does `sub` occur in `s`? -/
def charsContain : List Char → List Char → Bool
  | s, sub =>
    if charsStart s sub then true
    else
      match s with
      | [] => false
      | _ :: rest => charsContain rest sub

/-- Go `strings.Contains`. -/
def strContains (s sub : String) : Bool :=
  charsContain s.data sub.data

/-- Environment of `TryIdentityFile` (identity.go): `os.UserHomeDir`,
`filepath.Join`, `os.ReadFile`, and the two x/crypto parsers
(`ssh.ParsePrivateKey`, `ssh.ParsePrivateKeyWithPassphrase`), each modelled by
its outcome (a signer identifier, or an error message). -/
structure IdentityEnv where
  userHomeDir : Except String String
  join : String → String → String
  readFile : String → Except String GoBytes
  parsePrivateKey : GoBytes → Except String Nat
  parsePrivateKeyWithPassphrase : GoBytes → String → Except String Nat

/-- `TryIdentityFile` (identity.go).  Returns the optional method (Go `nil`
becomes `none`) together with the `logger.Printf` lines it emits. -/
def TryIdentityFile (env : IdentityEnv) (identityFile passphrase : String) :
    Option AuthMethod × List String :=
  if identityFile = "" then (none, [])
  else
    -- Expand ~ to home directory
    let expanded : Except (List String) String :=
      if startsWithTilde identityFile then
        match env.userHomeDir with
        | Except.error e => Except.error ["Failed to get home directory: " ++ e]
        | Except.ok home => Except.ok (env.join home (strDropFirst identityFile))
      else Except.ok identityFile
    match expanded with
    | Except.error logs => (none, logs)
    | Except.ok identityFile =>
      -- Read the private key file
      match env.readFile identityFile with
      | Except.error e =>
        (none, ["Failed to read identity file " ++ identityFile ++ ": " ++ e])
      | Except.ok keyData =>
        -- Try to parse the key without passphrase first
        match env.parsePrivateKey keyData with
        | Except.ok signer =>
          (some (AuthMethod.publicKeys signer),
            ["Successfully loaded identity file: " ++ identityFile])
        | Except.error e =>
          if passphrase ≠ "" then
            match env.parsePrivateKeyWithPassphrase keyData passphrase with
            | Except.ok signer =>
              (some (AuthMethod.publicKeys signer),
                ["Successfully loaded encrypted identity file: " ++ identityFile])
            | Except.error e2 =>
              (none,
                ["Failed to parse identity file " ++ identityFile ++ " with passphrase: " ++ e2])
          else
            if strContains e "encrypted" ∨ strContains e "passphrase" then
              (none, ["Identity file " ++ identityFile ++ " is encrypted but no passphrase provided"])
            else
              (none, ["Failed to parse identity file " ++ identityFile ++ ": " ++ e])

/-- `AuthConfig` (session.go). -/
structure AuthConfig where
  sshAgent : Bool
  identityFile : String
  identityPassphrase : String
  keyringService : String
  keyringAccount : String
  password : String

/-- The external collaborators of the four credential sources. -/
structure SourcesEnv where
  agent : AgentEnv
  identity : IdentityEnv
  keyringGet : String → String → Except String GoBytes

/-- `buildAuthMethods` (session.go): sequentially appends the outputs of the
Agent, IdentityFile, Keyring and Password sources. -/
def buildAuthMethods (env : SourcesEnv) (config : AuthConfig) : List AuthMethod :=
  let authMethods : List AuthMethod := []
  let authMethods :=
    if config.sshAgent then
      match TrySSHAgent env.agent with
      | some agentAuth => authMethods ++ [agentAuth]
      | none => authMethods
    else authMethods
  let authMethods :=
    if config.identityFile ≠ "" then
      match (TryIdentityFile env.identity config.identityFile config.identityPassphrase).fst with
      | some keyAuth => authMethods ++ [keyAuth]
      | none => authMethods
    else authMethods
  let authMethods :=
    if config.keyringService ≠ "" ∧ config.keyringAccount ≠ "" then
      match GetPasswordFromKeyring env.keyringGet config.keyringService config.keyringAccount with
      | Except.ok password =>
        if password ≠ [] then authMethods ++ TryPasswordAuth password else authMethods
      | Except.error _ => authMethods
    else authMethods
  let authMethods :=
    if config.password ≠ "" then authMethods ++ TryPasswordAuth (strBytes config.password)
    else authMethods
  authMethods

/-- A local terminal mode: either some cooked-mode state (`term.State`, labelled
by a natural number) or raw mode. -/
inductive TermState where
  | mode (s : Nat) : TermState
  | rawMode : TermState
deriving DecidableEq

/-- Observable actions `StartSession` performs on its external resources, in
program order.  `tcpDial` / `sshDial` / `requestPty` / `startShell` record the
attempt; `tcpClose` / `newSession` / `makeRaw` / `restoreTerm` / `closeSession`
/ `closeClient` record the completed effect. -/
inductive Event where
  | tcpDial : Event
  | tcpClose : Event
  | sshDial : Event
  | newSession : Event
  | makeRaw : Event
  | restoreTerm (saved : TermState) : Event
  | requestPty (height width : Nat) : Event
  | startShell : Event
  | waitShell : Event
  | closeSession : Event
  | closeClient : Event
deriving DecidableEq

/-- Outcome of `ssh.Dial`: success, a `*ssh.ServerAuthError` (with the `%v`
renderings of `authErr.Errors` and of the full error), or any other error. -/
inductive SSHDialOutcome where
  | ok : SSHDialOutcome
  | serverAuthError (errorsText fullErrorText : String) : SSHDialOutcome
  | otherError (msg : String) : SSHDialOutcome

/-- External collaborators of `StartSession` (session.go): the credential
sources plus the outcomes of every fallible call it makes.  `none` means the
call succeeds; `some e` carries the `%v` rendering of the error. -/
structure SessionEnv where
  sources : SourcesEnv
  tcpDialError : Option String
  sshDial : SSHDialOutcome
  newSessionError : Option String
  makeRawError : Option String
  initialTerm : TermState
  getSize : Option (Nat × Nat)
  requestPtyError : Option String
  shellError : Option String

/-- What a call to `StartSession` produces: the returned Go `error`
(`none` = `nil`), the resource events in order, and the `internal/logger`
lines written in order (`logger.Fatalf`/`logger.Fatal` log `FATAL: msg` and
return an error carrying exactly `msg`; the `logger.Printf` calls inside
`buildAuthMethods` and the credential sources are not replayed here). -/
structure SessionOutcome where
  result : Option String
  events : List Event
  logs : List String

/-- The message of `logger.Fatal` at session.go line 75. -/
def noAuthMethodMessage : String :=
  "No authentication method available. Configure at least one: ssh_agent, identity_file, keyring, or password."

/-- `StartSession` (session.go), with the `defer`red cleanups
(`client.Close`, `session.Close`, `term.Restore`) replayed in LIFO order on
every return path. -/
def StartSession (env : SessionEnv) (host : String) (port : Int) (user : String)
    (authConfig : AuthConfig) : SessionOutcome :=
  let logs0 := ["Attempting connection to " ++ user ++ "@" ++ host ++ ":" ++ toString port]
  let address := host ++ ":" ++ toString port
  let logs1 := logs0 ++ ["Testing TCP connection to " ++ address ++ "..."]
  match env.tcpDialError with
  | some e =>
    let msg := "Cannot reach " ++ address ++ " - TCP connection failed: " ++ e ++
      "\nCheck firewall, DNS, and network connectivity"
    { result := some msg, events := [Event.tcpDial], logs := logs1 ++ ["FATAL: " ++ msg] }
  | none =>
    let events1 := [Event.tcpDial, Event.tcpClose]
    let logs2 := logs1 ++ ["TCP connection successful, attempting SSH handshake..."]
    let authMethods := buildAuthMethods env.sources authConfig
    if authMethods.length = 0 then
      { result := some noAuthMethodMessage, events := events1,
        logs := logs2 ++ ["FATAL: " ++ noAuthMethodMessage] }
    else
      let events2 := events1 ++ [Event.sshDial]
      match env.sshDial with
      | SSHDialOutcome.serverAuthError errorsText fullErrorText =>
        let msg := "SSH authentication failed!\nErrors from server: " ++ errorsText ++
          "\nFull error: " ++ fullErrorText
        { result := some msg, events := events2,
          logs := logs2 ++
            ["Authentication methods we tried: " ++ Nat.repr authMethods.length ++ " methods",
             "FATAL: " ++ msg] }
      | SSHDialOutcome.otherError e =>
        let msg := "SSH connection failed: " ++ e
        { result := some msg, events := events2, logs := logs2 ++ ["FATAL: " ++ msg] }
      | SSHDialOutcome.ok =>
        let logs3 := logs2 ++ ["SSH connection established successfully!"]
        match env.newSessionError with
        | some e =>
          let msg := "Failed to create session: " ++ e
          { result := some msg, events := events2 ++ [Event.closeClient],
            logs := logs3 ++ ["FATAL: " ++ msg] }
        | none =>
          let events3 := events2 ++ [Event.newSession]
          match env.makeRawError with
          | some e =>
            -- MakeRaw failed: raw mode was never entered, so no restore happens.
            let msg := "Failed to set raw mode: " ++ e
            { result := some msg, events := events3 ++ [Event.closeSession, Event.closeClient],
              logs := logs3 ++ ["FATAL: " ++ msg] }
          | none =>
            let oldState := env.initialTerm
            let events4 := events3 ++ [Event.makeRaw]
            let dims :=
              match env.getSize with
              | some wh => wh
              | none => (80, 24)
            let width := dims.fst
            let height := dims.snd
            let events5 := events4 ++ [Event.requestPty height width]
            match env.requestPtyError with
            | some e =>
              let msg := "Request for pseudo terminal failed: " ++ e
              { result := some msg,
                events := events5 ++
                  [Event.restoreTerm oldState, Event.closeSession, Event.closeClient],
                logs := logs3 ++ ["FATAL: " ++ msg] }
            | none =>
              let events6 := events5 ++ [Event.startShell]
              match env.shellError with
              | some e =>
                let msg := "Failed to start shell: " ++ e
                { result := some msg,
                  events := events6 ++
                    [Event.restoreTerm oldState, Event.closeSession, Event.closeClient],
                  logs := logs3 ++ ["FATAL: " ++ msg] }
              | none =>
                { result := none,
                  events := events6 ++
                    [Event.waitShell, Event.restoreTerm oldState, Event.closeSession,
                     Event.closeClient],
                  logs := logs3 }

/-- The effect of one event on the local terminal mode: `term.MakeRaw` switches
to raw mode, `term.Restore` sets the saved state back; nothing else touches the
terminal. -/
def applyEvent (t : TermState) : Event → TermState
  | Event.makeRaw => TermState.rawMode
  | Event.restoreTerm saved => saved
  | _ => t

/-- The local terminal mode after replaying a list of events. -/
def runTerm (t : TermState) (events : List Event) : TermState :=
  events.foldl applyEvent t

/-- Does an event touch the local terminal mode? -/
def isTermEvent : Event → Bool
  | Event.makeRaw => true
  | Event.restoreTerm _ => true
  | _ => false

/-- The subsequence of events that touch the local terminal mode. -/
def termEvents (events : List Event) : List Event :=
  events.filter isTermEvent

/-- The keyring decode rule exactly as the specification words it (for
comparison with the source): the UTF-16LE correction applies exactly when the
byte length is greater than 1 and the second byte is zero, and otherwise the
bytes are returned unchanged.  Decoding an odd-length sequence as 16-bit units
reads the maximal prefix of whole units. -/
def specKeyringDecode (password : GoBytes) : GoBytes :=
  if 1 < password.length ∧ password.getD 1 1 = 0 then
    utf8Encode (utf16Decode (bytesToUnits password))
  else password

/-- The Agent source's contribution to the chain, as the resolver gates it. -/
def agentSourceMethods (env : SourcesEnv) (config : AuthConfig) : List AuthMethod :=
  if config.sshAgent then (TrySSHAgent env.agent).toList else []

/-- The IdentityFile source's contribution to the chain, as the resolver gates it. -/
def identitySourceMethods (env : SourcesEnv) (config : AuthConfig) : List AuthMethod :=
  if config.identityFile ≠ "" then
    ((TryIdentityFile env.identity config.identityFile config.identityPassphrase).fst).toList
  else []

/-- The Keyring source's contribution to the chain, as the resolver gates it. -/
def keyringSourceMethods (env : SourcesEnv) (config : AuthConfig) : List AuthMethod :=
  if config.keyringService ≠ "" ∧ config.keyringAccount ≠ "" then
    match GetPasswordFromKeyring env.keyringGet config.keyringService config.keyringAccount with
    | Except.ok password => if password ≠ [] then TryPasswordAuth password else []
    | Except.error _ => []
  else []

/-- The Password source's contribution to the chain, as the resolver gates it. -/
def passwordSourceMethods (config : AuthConfig) : List AuthMethod :=
  if config.password ≠ "" then TryPasswordAuth (strBytes config.password) else []

/-- An identity-file environment in which every external call fails. -/
def identityEnvNone : IdentityEnv :=
  { userHomeDir := Except.error "no home directory",
    join := fun a b => a ++ "/" ++ b,
    readFile := fun _ => Except.error "no such file",
    parsePrivateKey := fun _ => Except.error "cannot parse",
    parsePrivateKeyWithPassphrase := fun _ _ => Except.error "cannot parse" }

/-- A sources environment in which every external resource is absent. -/
def sourcesEnvNone : SourcesEnv :=
  { agent := { sshAuthSock := "", dial := fun _ _ => false },
    identity := identityEnvNone,
    keyringGet := fun _ _ => Except.error "secret not found in keyring" }

/-- A sources environment in which every external resource is present: the
agent socket is set and dials, the identity file reads and parses (signer 7),
and the keyring holds the secret "kp" = `[0x6B, 0x70]`. -/
def sourcesEnvAll : SourcesEnv :=
  { agent := { sshAuthSock := "/tmp/agent.sock", dial := fun _ _ => true },
    identity :=
      { userHomeDir := Except.ok "/home/alice",
        join := fun a b => a ++ "/" ++ b,
        readFile := fun _ => Except.ok [0x2D],
        parsePrivateKey := fun _ => Except.ok 7,
        parsePrivateKeyWithPassphrase := fun _ _ => Except.ok 7 },
    keyringGet := fun _ _ => Except.ok [0x6B, 0x70] }

/-- An identity-file environment whose key file is passphrase protected and
whose passphrase-parse rejects the supplied passphrase. -/
def identityEnvEncrypted : IdentityEnv :=
  { userHomeDir := Except.error "no home directory",
    join := fun a b => a ++ "/" ++ b,
    readFile := fun _ => Except.ok [0x2D],
    parsePrivateKey := fun _ => Except.error "ssh: this private key is passphrase protected",
    parsePrivateKeyWithPassphrase := fun _ _ => Except.error "x509: decryption password incorrect" }

/-- The all-empty credential bundle. -/
def emptyAuthConfig : AuthConfig :=
  { sshAgent := false, identityFile := "", identityPassphrase := "",
    keyringService := "", keyringAccount := "", password := "" }

/-- A bundle in which only the password field is set. -/
def cfgPasswordOnly : AuthConfig :=
  { sshAgent := false, identityFile := "", identityPassphrase := "",
    keyringService := "", keyringAccount := "", password := "pw" }

/-- A bundle with all four sources configured. -/
def cfgAllSources : AuthConfig :=
  { sshAgent := true, identityFile := "/home/alice/.ssh/id_rsa", identityPassphrase := "",
    keyringService := "svc", keyringAccount := "acct", password := "pw" }

/-- A session environment in which the server is reachable and every later
step succeeds; no credential source is available. -/
def sessionEnvReachable : SessionEnv :=
  { sources := sourcesEnvNone, tcpDialError := none, sshDial := SSHDialOutcome.ok,
    newSessionError := none, makeRawError := none, initialTerm := TermState.mode 3,
    getSize := none, requestPtyError := none, shellError := none }

/-- A session environment in which the server is reachable but rejects every
offered method at the SSH handshake. -/
def sessionEnvAuthReject : SessionEnv :=
  { sources := sourcesEnvNone, tcpDialError := none,
    sshDial := SSHDialOutcome.serverAuthError "[ssh: unable to authenticate]"
      "ssh: handshake failed",
    newSessionError := none, makeRawError := none, initialTerm := TermState.mode 3,
    getSize := none, requestPtyError := none, shellError := none }

/-- C4 as stated is false: for the secret `[0x41, 0x00, 0x42]` the byte length
is greater than 1 and the second byte is zero, so by the claim the UTF-16LE
correction should apply and decode the bytes (to `[0x41]`), but the source
returns the three bytes unchanged. -/
theorem C4_counterexample :
    GetPasswordFromKeyring (fun _ _ => Except.ok [0x41, 0x00, 0x42]) "service" "account" =
      Except.ok [0x41, 0x00, 0x42] ∧
    specKeyringDecode [0x41, 0x00, 0x42] = [0x41] ∧
    ([0x41, 0x00, 0x42] : GoBytes) ≠ [0x41] :=
  ⟨rfl, rfl, by decide⟩

/-- C4 (amended): the UTF-16LE correction applies exactly when the byte length
is greater than 1, the byte length is even, and the second byte is zero, in
which case the bytes are decoded as little-endian 16-bit code units into text;
otherwise the bytes are returned unchanged.  Concretely, `[0x41, 0x00, 0x42,
0x00]` yields the text "AB" and the ASCII bytes `[0x41, 0x42]` are returned
unchanged. -/
theorem C4_keyring_decode (keyringGet : String → String → Except String GoBytes)
    (service account : String) (bytes : GoBytes)
    (hs : service ≠ "") (ha : account ≠ "")
    (hg : keyringGet service account = Except.ok bytes) :
    ((1 < bytes.length ∧ bytes.length % 2 = 0 ∧ bytes.getD 1 1 = 0) →
      GetPasswordFromKeyring keyringGet service account =
        Except.ok (utf8Encode (utf16Decode (bytesToUnits bytes)))) ∧
    (¬(1 < bytes.length ∧ bytes.length % 2 = 0 ∧ bytes.getD 1 1 = 0) →
      GetPasswordFromKeyring keyringGet service account = Except.ok bytes) ∧
    GetPasswordFromKeyring (fun _ _ => Except.ok [0x41, 0x00, 0x42, 0x00]) "svc" "acct" =
      Except.ok (strBytes "AB") ∧
    GetPasswordFromKeyring (fun _ _ => Except.ok [0x41, 0x42]) "svc" "acct" =
      Except.ok [0x41, 0x42] := by
  have hcond : ¬(service = "" ∨ account = "") := by
    rintro (h | h)
    · exact hs h
    · exact ha h
  refine ⟨?_, ?_, rfl, rfl⟩
  · rintro ⟨h1, h2, h3⟩
    have hgd : bytes[1] = 0 := (List.getD_eq_getElem bytes 1 h1) ▸ h3
    simp only [GetPasswordFromKeyring, if_neg hcond, hg]
    simp [h1, h2, hgd]
  · intro h
    simp only [GetPasswordFromKeyring, if_neg hcond, hg]
    by_cases h1 : 1 < bytes.length
    · have hgd : bytes.getD 1 1 = bytes[1] := List.getD_eq_getElem bytes 1 h1
      by_cases h3 : bytes[1] = 0
      · have h2 : bytes.length % 2 ≠ 0 := fun h2 => h ⟨h1, h2, hgd ▸ h3⟩
        simp [h1, h3, h2]
      · simp [h1, h3]
    · simp [h1]

/-- Witness for C4_keyring_decode at the secret `[0x41, 0x00, 0x42, 0x00]`. -/
theorem C4_keyring_decode_witness :
    GetPasswordFromKeyring (fun _ _ => Except.ok [0x41, 0x00, 0x42, 0x00]) "svc" "acct" =
      Except.ok (utf8Encode (utf16Decode (bytesToUnits [0x41, 0x00, 0x42, 0x00]))) :=
  (C4_keyring_decode (fun _ _ => Except.ok [0x41, 0x00, 0x42, 0x00]) "svc" "acct"
    [0x41, 0x00, 0x42, 0x00] (by decide) (by decide) rfl).1 (by decide)

/-- C10: for every keyring secret whose byte length is odd and whose second
byte is zero, the retrieval returns the byte sequence unchanged: the UTF-16LE
decoding step is skipped for odd-length inputs even though the detection
heuristic matches. -/
theorem C10_keyring_odd_length (keyringGet : String → String → Except String GoBytes)
    (service account : String) (bytes : GoBytes)
    (hs : service ≠ "") (ha : account ≠ "")
    (hg : keyringGet service account = Except.ok bytes)
    (hodd : bytes.length % 2 = 1) (hz : bytes.getD 1 1 = 0) :
    GetPasswordFromKeyring keyringGet service account = Except.ok bytes := by
  have hcond : ¬(service = "" ∨ account = "") := by
    rintro (h | h)
    · exact hs h
    · exact ha h
  have hlen : 1 < bytes.length := by
    rcases bytes with _ | ⟨b0, rest⟩
    · simp [List.getD] at hz
    · rcases rest with _ | ⟨b1, rest2⟩
      · simp [List.getD] at hz
      · simp only [List.length_cons]
        omega
  simp only [GetPasswordFromKeyring, if_neg hcond, hg]
  simp [hlen, hz, hodd]

/-- Witness for C10_keyring_odd_length at the secret `[0x41, 0x00, 0x42]`. -/
theorem C10_keyring_odd_length_witness :
    GetPasswordFromKeyring (fun _ _ => Except.ok [0x41, 0x00, 0x42]) "svca" "accta" =
      Except.ok [0x41, 0x00, 0x42] :=
  C10_keyring_odd_length (fun _ _ => Except.ok [0x41, 0x00, 0x42]) "svca" "accta"
    [0x41, 0x00, 0x42] (by decide) (by decide) rfl (by decide) (by decide)

/-- C5: for every non-empty secret the Password source yields exactly two
descriptors, the direct-password method first and the challenge/response
(keyboard-interactive) method second; hence for every bundle in which only the
password field is non-empty, the resolved chain is exactly these two
descriptors in that order. -/
theorem C5_password_source :
    (∀ secret : GoBytes, secret ≠ [] →
      TryPasswordAuth secret =
        [AuthMethod.password secret, AuthMethod.keyboardInteractive secret]) ∧
    (∀ (env : SourcesEnv) (config : AuthConfig),
      config.sshAgent = false → config.identityFile = "" → config.identityPassphrase = "" →
      config.keyringService = "" → config.keyringAccount = "" → config.password ≠ "" →
      buildAuthMethods env config =
        [AuthMethod.password (strBytes config.password),
         AuthMethod.keyboardInteractive (strBytes config.password)]) := by
  constructor
  · intro secret _
    rfl
  · intro env config hA hI _ hKs hKa hP
    simp [buildAuthMethods, hA, hI, hKs, hKa, hP, TryPasswordAuth]

/-- Witness for C5_password_source: the secret `[0x70]`, and the bundle whose
only non-empty field is the password "pw". -/
theorem C5_password_source_witness :
    TryPasswordAuth [0x70] =
      [AuthMethod.password [0x70], AuthMethod.keyboardInteractive [0x70]] ∧
    buildAuthMethods sourcesEnvNone cfgPasswordOnly =
      [AuthMethod.password (strBytes cfgPasswordOnly.password),
       AuthMethod.keyboardInteractive (strBytes cfgPasswordOnly.password)] :=
  ⟨C5_password_source.1 [0x70] (by decide),
   C5_password_source.2 sourcesEnvNone cfgPasswordOnly rfl rfl rfl rfl rfl (by decide)⟩

/-- C7: for every credential bundle in which every field is empty, resolution
returns an empty authentication chain. -/
theorem C7_empty_bundle (env : SourcesEnv) (config : AuthConfig)
    (h1 : config.sshAgent = false) (h2 : config.identityFile = "")
    (h3 : config.identityPassphrase = "") (h4 : config.keyringService = "")
    (h5 : config.keyringAccount = "") (h6 : config.password = "") :
    buildAuthMethods env config = [] := by
  simp [buildAuthMethods, h1, h2, h4, h6]

/-- Witness for C7_empty_bundle at the all-empty bundle. -/
theorem C7_empty_bundle_witness :
    buildAuthMethods sourcesEnvNone emptyAuthConfig = [] :=
  C7_empty_bundle sourcesEnvNone emptyAuthConfig rfl rfl rfl rfl rfl rfl

/-- C3: the resolver invokes the four sources in the fixed priority order
Agent, IdentityFile, Keyring, Password and returns the concatenation of their
outputs preserving intra-source ordering (and, being a total function, never
fails: an empty chain is a valid result); for a bundle with agent enabled, a
valid identity file, a valid keyring entry and a password all configured, the
chain order is exactly Agent, IdentityFile, Keyring-passwords, explicit
Passwords. -/
theorem C3_priority_order :
    (∀ (env : SourcesEnv) (config : AuthConfig),
      buildAuthMethods env config =
        agentSourceMethods env config ++ identitySourceMethods env config ++
          keyringSourceMethods env config ++ passwordSourceMethods config) ∧
    (∀ (env : SourcesEnv) (config : AuthConfig) (agentM keyM : AuthMethod) (kp : GoBytes),
      config.sshAgent = true → TrySSHAgent env.agent = some agentM →
      config.identityFile ≠ "" →
      (TryIdentityFile env.identity config.identityFile config.identityPassphrase).fst =
        some keyM →
      config.keyringService ≠ "" → config.keyringAccount ≠ "" →
      GetPasswordFromKeyring env.keyringGet config.keyringService config.keyringAccount =
        Except.ok kp →
      kp ≠ [] → config.password ≠ "" →
      buildAuthMethods env config =
        [agentM, keyM, AuthMethod.password kp, AuthMethod.keyboardInteractive kp,
         AuthMethod.password (strBytes config.password),
         AuthMethod.keyboardInteractive (strBytes config.password)]) := by
  constructor
  · intro env config
    unfold buildAuthMethods agentSourceMethods identitySourceMethods keyringSourceMethods
      passwordSourceMethods
    cases hA : config.sshAgent <;>
      cases hAg : TrySSHAgent env.agent <;>
        by_cases hI : config.identityFile = "" <;>
          cases hIf :
              (TryIdentityFile env.identity config.identityFile config.identityPassphrase).fst <;>
            by_cases hK : config.keyringService ≠ "" ∧ config.keyringAccount ≠ "" <;>
              cases hKr :
                  GetPasswordFromKeyring env.keyringGet config.keyringService
                    config.keyringAccount <;>
                by_cases hP : config.password = "" <;>
                  simp [hA, hAg, hI, hIf, hK, hKr, hP] <;>
                    (try (split <;> simp))
  · intro env config agentM keyM kp hA hAg hI hIf hKs hKa hKr hkp hP
    simp [buildAuthMethods, hA, hAg, hI, hIf, hKs, hKa, hKr, hkp, hP, TryPasswordAuth]

/-- Witness for C3_priority_order: an environment in which all four sources
fire, with the keyring secret `[0x6B, 0x70]` and the password "pw". -/
theorem C3_priority_order_witness :
    buildAuthMethods sourcesEnvAll emptyAuthConfig =
      agentSourceMethods sourcesEnvAll emptyAuthConfig ++
        identitySourceMethods sourcesEnvAll emptyAuthConfig ++
        keyringSourceMethods sourcesEnvAll emptyAuthConfig ++
        passwordSourceMethods emptyAuthConfig ∧
    buildAuthMethods sourcesEnvAll cfgAllSources =
      [AuthMethod.agentKeys, AuthMethod.publicKeys 7, AuthMethod.password [0x6B, 0x70],
       AuthMethod.keyboardInteractive [0x6B, 0x70],
       AuthMethod.password (strBytes cfgAllSources.password),
       AuthMethod.keyboardInteractive (strBytes cfgAllSources.password)] :=
  ⟨C3_priority_order.1 sourcesEnvAll emptyAuthConfig,
   C3_priority_order.2 sourcesEnvAll cfgAllSources AuthMethod.agentKeys
     (AuthMethod.publicKeys 7) [0x6B, 0x70] rfl rfl (by decide) rfl (by decide) (by decide)
     rfl (by decide) (by decide)⟩

/-- C6: the IdentityFile source first parses with no passphrase; on failure it
retries with the passphrase when one was supplied (a wrong passphrase yields
nothing); when no passphrase was supplied and the failure message indicates an
encrypted key it yields nothing and logs that reason; and any other parse
failure also yields nothing rather than an error. -/
theorem C6_identity_file (env : IdentityEnv) (file passphrase : String) (keyData : GoBytes)
    (hfile : file ≠ "") (htilde : startsWithTilde file = false)
    (hread : env.readFile file = Except.ok keyData) :
    (∀ signer, env.parsePrivateKey keyData = Except.ok signer →
      (TryIdentityFile env file passphrase).fst = some (AuthMethod.publicKeys signer)) ∧
    (∀ e signer, env.parsePrivateKey keyData = Except.error e → passphrase ≠ "" →
      env.parsePrivateKeyWithPassphrase keyData passphrase = Except.ok signer →
      (TryIdentityFile env file passphrase).fst = some (AuthMethod.publicKeys signer)) ∧
    (∀ e e2, env.parsePrivateKey keyData = Except.error e → passphrase ≠ "" →
      env.parsePrivateKeyWithPassphrase keyData passphrase = Except.error e2 →
      (TryIdentityFile env file passphrase).fst = none) ∧
    (∀ e, env.parsePrivateKey keyData = Except.error e → passphrase = "" →
      (TryIdentityFile env file passphrase).fst = none ∧
      ((strContains e "encrypted" = true ∨ strContains e "passphrase" = true) →
        (TryIdentityFile env file passphrase).snd =
          ["Identity file " ++ file ++ " is encrypted but no passphrase provided"])) := by
  refine ⟨?_, ?_, ?_, ?_⟩
  · intro signer hparse
    simp [TryIdentityFile, hfile, htilde, hread, hparse]
  · intro e signer hparse hpass hparse2
    simp [TryIdentityFile, hfile, htilde, hread, hparse, hpass, hparse2]
  · intro e e2 hparse hpass hparse2
    simp [TryIdentityFile, hfile, htilde, hread, hparse, hpass, hparse2]
  · intro e hparse hpass
    constructor
    · by_cases h : strContains e "encrypted" = true ∨ strContains e "passphrase" = true <;>
        simp [TryIdentityFile, hfile, htilde, hread, hparse, hpass, h]
    · intro henc
      rcases henc with h | h <;>
        simp [TryIdentityFile, hfile, htilde, hread, hparse, hpass, h]

/-- Witness for C6_identity_file: a passphrase-protected key file, once with no
passphrase (yields nothing, logs the encryption reason) and once with a wrong
passphrase (yields nothing). -/
theorem C6_identity_file_witness :
    (TryIdentityFile identityEnvEncrypted "id_rsa" "").fst = none ∧
    (TryIdentityFile identityEnvEncrypted "id_rsa" "").snd =
      ["Identity file id_rsa is encrypted but no passphrase provided"] ∧
    (TryIdentityFile identityEnvEncrypted "id_rsa" "wrong").fst = none := by
  have h := C6_identity_file identityEnvEncrypted "id_rsa" "" [0x2D]
    (by decide) (by decide) rfl
  have h2 := C6_identity_file identityEnvEncrypted "id_rsa" "wrong" [0x2D]
    (by decide) (by decide) rfl
  exact ⟨(h.2.2.2 _ rfl rfl).1,
    (h.2.2.2 _ rfl rfl).2 (Or.inr (by decide)),
    h2.2.2.1 _ _ rfl (by decide) rfl⟩

/-- C1 as stated is false: with the server reachable and an empty credential
bundle, StartSession does return the NoAuthMethod configuration error, but the
TCP reachability probe has already been attempted — a network call occurs
before the empty chain is detected. -/
theorem C1_counterexample :
    buildAuthMethods sessionEnvReachable.sources emptyAuthConfig = [] ∧
    (StartSession sessionEnvReachable "example.com" 22 "alice" emptyAuthConfig).result =
      some noAuthMethodMessage ∧
    Event.tcpDial ∈ (StartSession sessionEnvReachable "example.com" 22 "alice"
      emptyAuthConfig).events :=
  ⟨rfl, rfl, by decide⟩

/-- C1 (amended): for every credential bundle that resolves to an empty chain,
once the reachability probe succeeds StartSession returns the NoAuthMethod
configuration error without the SSH dial ever being attempted — the only
network events are the TCP probe and its close, which always run first. -/
theorem C1_no_auth_method (env : SessionEnv) (host : String) (port : Int) (user : String)
    (config : AuthConfig) (htcp : env.tcpDialError = none)
    (hempty : buildAuthMethods env.sources config = []) :
    (StartSession env host port user config).result = some noAuthMethodMessage ∧
    (StartSession env host port user config).events = [Event.tcpDial, Event.tcpClose] := by
  unfold StartSession
  rw [htcp]
  simp [hempty]

/-- Witness for C1_no_auth_method: a reachable server and the all-empty
bundle. -/
theorem C1_no_auth_method_witness :
    (StartSession sessionEnvReachable "example.com" 22 "alice" emptyAuthConfig).result =
      some noAuthMethodMessage ∧
    (StartSession sessionEnvReachable "example.com" 22 "alice" emptyAuthConfig).events =
      [Event.tcpDial, Event.tcpClose] :=
  C1_no_auth_method sessionEnvReachable "example.com" 22 "alice" emptyAuthConfig rfl rfl

/-- C2: in every execution of StartSession, raw mode is entered at most once,
and whenever it is entered the restoration to the pre-call terminal snapshot
follows before StartSession returns, on every exit path; replaying the events
always leaves the terminal in its initial state. -/
theorem C2_raw_mode_invariant (env : SessionEnv) (host : String) (port : Int) (user : String)
    (config : AuthConfig) :
    runTerm env.initialTerm (StartSession env host port user config).events =
      env.initialTerm ∧
    (termEvents (StartSession env host port user config).events = [] ∨
      termEvents (StartSession env host port user config).events =
        [Event.makeRaw, Event.restoreTerm env.initialTerm]) := by
  obtain ⟨src, tcp, dial, ns, mr, it, gs, rp, sh⟩ := env
  by_cases hA : (buildAuthMethods src config).length = 0 <;>
    cases tcp <;> cases dial <;> cases ns <;> cases mr <;> cases gs <;> cases rp <;>
      cases sh <;>
        simp [StartSession, runTerm, termEvents, isTermEvent, applyEvent, hA]

/-- C8 as stated is false: when the server rejects every offered method, the
count of methods tried (here 2) is written to the diagnostic log but does not
occur in the returned failure message, which carries only the server's
per-method error detail and the full error. -/
theorem C8_counterexample :
    (buildAuthMethods sessionEnvAuthReject.sources cfgPasswordOnly).length = 2 ∧
    (StartSession sessionEnvAuthReject "example.com" 22 "alice" cfgPasswordOnly).result =
      some ("SSH authentication failed!\nErrors from server: [ssh: unable to authenticate]\nFull error: ssh: handshake failed") ∧
    strContains
      "SSH authentication failed!\nErrors from server: [ssh: unable to authenticate]\nFull error: ssh: handshake failed"
      "2" = false ∧
    ("Authentication methods we tried: 2 methods") ∈
      (StartSession sessionEnvAuthReject "example.com" 22 "alice" cfgPasswordOnly).logs :=
  ⟨rfl, rfl, by decide, by decide⟩

/-- C8 (amended): when the server rejects all offered methods, StartSession
returns a failure whose message includes the server's per-method error detail
and the full error text; the count of methods tried is emitted as a diagnostic
log line, not included in the returned message. -/
theorem C8_auth_rejected (env : SessionEnv) (host : String) (port : Int) (user : String)
    (config : AuthConfig) (errorsText fullErrorText : String)
    (htcp : env.tcpDialError = none)
    (hne : (buildAuthMethods env.sources config).length ≠ 0)
    (hdial : env.sshDial = SSHDialOutcome.serverAuthError errorsText fullErrorText) :
    (StartSession env host port user config).result =
      some ("SSH authentication failed!\nErrors from server: " ++ errorsText ++
        "\nFull error: " ++ fullErrorText) ∧
    ("Authentication methods we tried: " ++
        Nat.repr (buildAuthMethods env.sources config).length ++ " methods") ∈
      (StartSession env host port user config).logs := by
  unfold StartSession
  rw [htcp, hdial]
  simp [hne]

/-- Witness for C8_auth_rejected: a reachable server rejecting the two
password-derived methods of the password-only bundle. -/
theorem C8_auth_rejected_witness :
    (StartSession sessionEnvAuthReject "example.com" 22 "alice" cfgPasswordOnly).result =
      some ("SSH authentication failed!\nErrors from server: " ++
        "[ssh: unable to authenticate]" ++ "\nFull error: " ++ "ssh: handshake failed") ∧
    ("Authentication methods we tried: " ++
        Nat.repr (buildAuthMethods sessionEnvAuthReject.sources cfgPasswordOnly).length ++
        " methods") ∈
      (StartSession sessionEnvAuthReject "example.com" 22 "alice" cfgPasswordOnly).logs :=
  C8_auth_rejected sessionEnvAuthReject "example.com" 22 "alice" cfgPasswordOnly
    "[ssh: unable to authenticate]" "ssh: handshake failed" rfl (by decide) rfl

/-- C9: when the local terminal's dimensions cannot be read, the remote PTY is
requested with the default 80 columns by 24 rows; when they can be read, the
PTY request carries exactly the local dimensions. -/
theorem C9_pty_dimensions (env : SessionEnv) (host : String) (port : Int) (user : String)
    (config : AuthConfig)
    (htcp : env.tcpDialError = none)
    (hne : (buildAuthMethods env.sources config).length ≠ 0)
    (hdial : env.sshDial = SSHDialOutcome.ok)
    (hsess : env.newSessionError = none)
    (hraw : env.makeRawError = none) :
    (env.getSize = none →
      Event.requestPty 24 80 ∈ (StartSession env host port user config).events) ∧
    (∀ width height, env.getSize = some (width, height) →
      Event.requestPty height width ∈ (StartSession env host port user config).events) := by
  unfold StartSession
  rw [htcp, hdial, hsess, hraw]
  constructor
  · intro hgs
    rw [hgs]
    cases env.requestPtyError <;> cases env.shellError <;> simp [hne]
  · intro width height hgs
    rw [hgs]
    cases env.requestPtyError <;> cases env.shellError <;> simp [hne]

/-- Witness for C9_pty_dimensions: a smooth session whose terminal size cannot
be read, requesting the default 80 by 24 PTY. -/
theorem C9_pty_dimensions_witness :
    Event.requestPty 24 80 ∈
      (StartSession sessionEnvReachable "example.com" 22 "alice" cfgPasswordOnly).events :=
  (C9_pty_dimensions sessionEnvReachable "example.com" 22 "alice" cfgPasswordOnly
    rfl (by decide) rfl rfl rfl).1 rfl

end Rolodex
